import Mathlib

/-!
Verification of the backlog burndown simulator (`backlog_burndown.py`).

The shallow embedding below translates the month-stepped simulation
`run_tailwind_model` and the shift-schedule construction of
`build_backlog_views` into Lean, using exact rationals for the float
arithmetic of the source.  All balances, capacities and demand figures
become `ℚ`; the Python `dict` shift map becomes a total function
`ℕ → ℚ` that returns `0` for absent keys (matching `dict.get(m, 0.0)`);
Python `None` becomes `Option`.
-/

namespace Burndown

/-- One emitted row of the simulation (Python: the dict appended to
`results_reduced`). -/
structure MonthResult where
  month : ℕ
  Total_Backlog : ℚ
  TW_Backlog : ℚ
  NANC_Backlog : ℚ
  AC_Backlog : ℚ
  Total_Capacity : ℚ
  Backlog_Months : Option ℚ
  Tailwind_Active : Bool
deriving DecidableEq

/-- The mutable simulation state: three bucket balances and the
tailwind-active flag. -/
structure EngineState where
  TW_b : ℚ
  NANC_b : ℚ
  AC_b : ℚ
  tailwind_active : Bool
deriving DecidableEq

/-- The parameter bundle of `run_tailwind_model` (keyword arguments of the
Python function, with the shift dict as a total function). -/
structure Params where
  total_backlog : ℚ
  total_TW_backlog : ℚ
  total_NANC_backlog : ℚ
  tw_headcount : ℚ
  q2_headcount : ℚ
  utilization : ℚ
  qtr_demand_total : ℚ
  q2_capacity_to_q2_pct : ℚ
  tw_share_of_demand : ℚ
  months : ℕ
  tw_shift_map : ℕ → ℚ
  removal_threshold_months : ℚ
  tw_capacity_reduction_month : ℕ
  model_diff_demand_after_removal : Bool
  post_removal_qtr_demand_total : Option ℚ
  modify_demand_after_12_months : Bool
  post_12_qtr_demand_total : Option ℚ

/-- Python: `TW_capacity = tw_headcount * (2080 / 12) * utilization`. -/
def TW_capacity (p : Params) : ℚ :=
  p.tw_headcount * (2080 / 12) * p.utilization

/-- Python: `Q2_capacity_full = q2_headcount * (2080 / 12) * utilization`. -/
def Q2_capacity_full (p : Params) : ℚ :=
  p.q2_headcount * (2080 / 12) * p.utilization

/-- Python: initialization of the three bucket balances at the top of
`run_tailwind_model`; only the Actionable residual is clamped
(`if AC_b < 0: AC_b = 0.0`). -/
def initState (p : Params) : EngineState :=
  { TW_b := p.total_TW_backlog
    NANC_b := p.total_NANC_backlog
    AC_b := max (p.total_backlog - p.total_TW_backlog - p.total_NANC_backlog) 0
    tailwind_active := true }

/-- Per-month capacities and incoming demand (the "Capacities and incoming"
block of the loop, including the quarterly-demand selection above it). -/
structure MonthCfg where
  TW_cap : ℚ
  Q2_cap : ℚ
  TW_inc : ℚ
  AC_inc : ℚ
deriving DecidableEq

/-- Python: the `active_qtr_demand` selection together with the
`if tailwind_active: ... else: ...` block computing `TW_cap_current`,
`Q2_cap_current`, `TW_incoming_current` and `AC_incoming_current`. -/
def monthCfg (p : Params) (month : ℕ) (active : Bool) : MonthCfg :=
  let active_qtr_demand :=
    if active ∧ p.modify_demand_after_12_months ∧ 13 ≤ month then
      p.post_12_qtr_demand_total.getD p.qtr_demand_total
    else p.qtr_demand_total
  if active then
    { TW_cap :=
        if p.tw_capacity_reduction_month ≠ 0 ∧ p.tw_capacity_reduction_month ≤ month
        then TW_capacity p * (1 / 2) else TW_capacity p
      Q2_cap := Q2_capacity_full p
      TW_inc := active_qtr_demand * p.tw_share_of_demand * (1 / 3)
      AC_inc := active_qtr_demand * (1 - p.tw_share_of_demand) * (1 / 3) }
  else
    { TW_cap := 0
      Q2_cap := Q2_capacity_full p
      TW_inc := 0
      AC_inc :=
        if p.model_diff_demand_after_removal then
          (p.post_removal_qtr_demand_total.getD p.qtr_demand_total) * (1 / 3)
        else 0 }

/-- Python: `Q2_cap_to_AC` (share of permanent capacity pre-allocated to the
Actionable bucket; all of it after removal). -/
def q2CapToAC (p : Params) (cfg : MonthCfg) (active : Bool) : ℚ :=
  if active then cfg.Q2_cap * p.q2_capacity_to_q2_pct else cfg.Q2_cap

/-- Python: `Q2_cap_to_TW` (remainder of permanent capacity supporting the
Temporary bucket; zero after removal). -/
def q2CapToTW (p : Params) (cfg : MonthCfg) (active : Bool) : ℚ :=
  if active then cfg.Q2_cap * (1 - p.q2_capacity_to_q2_pct) else 0

/-- Python: `AC_burn = min(AC_b, Q2_cap_to_AC)`. -/
def acBurn (p : Params) (cfg : MonthCfg) (s : EngineState) : ℚ :=
  min s.AC_b (q2CapToAC p cfg s.tailwind_active)

/-- Python: `unused_AC_capacity = max(Q2_cap_to_AC - AC_burn, 0.0)`. -/
def unusedACCap (p : Params) (cfg : MonthCfg) (s : EngineState) : ℚ :=
  max (q2CapToAC p cfg s.tailwind_active - acBurn p cfg s) 0

/-- Python: `TW_burn = min(TW_b, TW_cap_current + effective_Q2_cap_to_TW)`
where `effective_Q2_cap_to_TW = Q2_cap_to_TW + unused_AC_capacity`. -/
def twBurn (p : Params) (cfg : MonthCfg) (s : EngineState) : ℚ :=
  min s.TW_b (cfg.TW_cap + (q2CapToTW p cfg s.tailwind_active + unusedACCap p cfg s))

/-- Python: steps 1-4 of the burn logic: burn Actionable, reallocate the
unused Actionable capacity to Temporary, burn Temporary, then apply burn
and incoming with clamping at zero. -/
def burnPhase (p : Params) (cfg : MonthCfg) (s : EngineState) : EngineState :=
  { s with
    TW_b := max (s.TW_b - twBurn p cfg s + cfg.TW_inc) 0
    AC_b := max (s.AC_b - acBurn p cfg s + cfg.AC_inc) 0 }

/-- Python: the `if tailwind_active:` shift block moving
`min(NANC_b, shift)` from Blocked into Temporary. -/
def shiftPhase (sm : ℕ → ℚ) (month : ℕ) (s : EngineState) : EngineState :=
  if s.tailwind_active then
    let shift := sm month
    if 0 < shift then
      let actual_shift := min s.NANC_b shift
      { s with NANC_b := s.NANC_b - actual_shift, TW_b := s.TW_b + actual_shift }
    else s
  else s

/-- Python: `(total_b / total_cap_current) if total_cap_current > 0 else None`
computed before the removal check. -/
def preCoverage (cfg : MonthCfg) (s : EngineState) : Option ℚ :=
  if 0 < cfg.TW_cap + cfg.Q2_cap then
    some ((s.TW_b + s.NANC_b + s.AC_b) / (cfg.TW_cap + cfg.Q2_cap))
  else none

/-- Python: `(backlog_months is not None) and (backlog_months <= removal_threshold_months)`. -/
def coverFires (bm : Option ℚ) (t : ℚ) : Bool :=
  match bm with
  | some v => decide (v ≤ t)
  | none => false

/-- Python: the retroactive demand adjustment inside the removal branch,
applied only when `model_diff_demand_after_removal` is set: subtract the
Temporary incoming already applied this month and replace the Actionable
incoming with the post-removal figure (both clamped at 0). -/
def removalAdjust (p : Params) (cfg : MonthCfg) (s : EngineState) : EngineState :=
  if p.model_diff_demand_after_removal then
    let effective_monthly := (p.post_removal_qtr_demand_total.getD p.qtr_demand_total) * (1 / 3)
    { s with
      TW_b := max (s.TW_b - cfg.TW_inc) 0
      AC_b := max (s.AC_b + (effective_monthly - cfg.AC_inc)) 0 }
  else s

/-- Python: the "Metrics & Tailwind removal check" block and the row append:
compute coverage, possibly fire the Active-to-Removed transition (demand
adjustment, transfer of Temporary into Actionable, recompute metrics with
permanent-only capacity), and emit this month's row. -/
def finishMonth (p : Params) (cfg : MonthCfg) (month : ℕ) (s : EngineState) :
    EngineState × MonthResult :=
  let total_b := s.TW_b + s.NANC_b + s.AC_b
  let total_cap := cfg.TW_cap + cfg.Q2_cap
  let bm := preCoverage cfg s
  if s.tailwind_active && coverFires bm p.removal_threshold_months then
    let s1 := removalAdjust p cfg s
    let s2 : EngineState :=
      { TW_b := 0, NANC_b := s1.NANC_b, AC_b := s1.AC_b + s1.TW_b, tailwind_active := false }
    let total_b2 := s2.TW_b + s2.NANC_b + s2.AC_b
    let cap2 := Q2_capacity_full p
    let bm2 : Option ℚ := if 0 < cap2 then some (total_b2 / cap2) else none
    (s2,
      { month := month, Total_Backlog := total_b2, TW_Backlog := s2.TW_b
        NANC_Backlog := s2.NANC_b, AC_Backlog := s2.AC_b
        Total_Capacity := cap2, Backlog_Months := bm2, Tailwind_Active := false })
  else
    (s,
      { month := month, Total_Backlog := total_b, TW_Backlog := s.TW_b
        NANC_Backlog := s.NANC_b, AC_Backlog := s.AC_b
        Total_Capacity := total_cap, Backlog_Months := bm
        Tailwind_Active := s.tailwind_active })

/-- One iteration of the `for month in range(1, months + 1)` loop. -/
def stepMonth (p : Params) (sm : ℕ → ℚ) (month : ℕ) (s : EngineState) :
    EngineState × MonthResult :=
  let cfg := monthCfg p month s.tailwind_active
  finishMonth p cfg month (shiftPhase sm month (burnPhase p cfg s))

/-- Python: the month-0 baseline row (no burn, no incoming, no shifts). -/
def month0Row (p : Params) : MonthResult :=
  let s := initState p
  let total_cap_m0 := TW_capacity p + Q2_capacity_full p
  let total_b0 := s.TW_b + s.NANC_b + s.AC_b
  { month := 0, Total_Backlog := total_b0, TW_Backlog := s.TW_b
    NANC_Backlog := s.NANC_b, AC_Backlog := s.AC_b
    Total_Capacity := total_cap_m0
    Backlog_Months := if 0 < total_cap_m0 then some (total_b0 / total_cap_m0) else none
    Tailwind_Active := true }

/-- Python: `if 0 in tw_shift_map: tw_shift_map[1] += tw_shift_map.pop(0)`,
read as a lookup function (key 0 reads as 0 afterwards, key 1 absorbs the
old key-0 hours). -/
def foldShiftMap (f : ℕ → ℚ) : ℕ → ℚ :=
  fun m => if m = 0 then 0 else if m = 1 then f 1 + f 0 else f m

/-- The months 1..N of the loop, threading the engine state and collecting
rows in order; `fuel` is the number of remaining months. -/
def runFrom (p : Params) (sm : ℕ → ℚ) (s : EngineState) (month fuel : ℕ) :
    List MonthResult :=
  match fuel with
  | 0 => []
  | Nat.succ fuel =>
      let sr := stepMonth p sm month s
      sr.2 :: runFrom p sm sr.1 (month + 1) fuel

/-- The full simulation `run_tailwind_model`: month-0 row followed by the
rows of months 1..N. -/
def run_tailwind_model (p : Params) : List MonthResult :=
  month0Row p :: runFrom p (foldShiftMap p.tw_shift_map) (initState p) 1 p.months

/-!
Embedding of the shift-schedule construction in `build_backlog_views`
(the part from the `eligible` filter through `tw_shift_map`).  A calendar
date is represented by its absolute month index (`ym`, e.g. year * 12 +
month) and day of month; pandas timestamp comparison is the lexicographic
order on (month, day), and `Period("M")` subtraction is subtraction of the
month indices.
-/

/-- A calendar date: absolute month index and day of month. -/
structure Date where
  ym : ℤ
  d : ℕ
deriving DecidableEq

/-- Pandas timestamp order: `a < b` as dates. -/
def dateBefore (a b : Date) : Bool :=
  a.ym < b.ym ∨ (a.ym = b.ym ∧ a.d < b.d)

/-- Python: clamp a contingent go-live date lying before today to the first
day of the month after today (`today + pd.offsets.MonthBegin(1)`). -/
def clampGoLive (today golive : Date) : Date :=
  if dateBefore golive today then { ym := today.ym + 1, d := 1 } else golive

/-- Python: `GoLive_Month_Offset = golive_m - today_m` on the clamped date
(calendar-month difference of periods). -/
def goLiveMonthOffset (today golive : Date) : ℤ :=
  (clampGoLive today golive).ym - today.ym

/-- Python: `Shift_Month = offset.clip(lower=0) + 1` followed by
`.clip(lower=1)`. -/
def shiftMonthOf (today golive : Date) : ℤ :=
  max (max (goLiveMonthOffset today golive) 0 + 1) 1

/-- One aggregated Blocked (NANC) work order as seen by the scheduler:
its backlog hours, whether a contingent work order is linked, and the
optional contingent go-live date. -/
structure NANCWorkOrder where
  backlog : ℚ
  hasContingent : Bool
  goLive : Option Date
deriving DecidableEq

/-- Python eligibility filter: contingent work order present, go-live date
present, backlog strictly positive. -/
def eligibleWO (w : NANCWorkOrder) : Bool :=
  w.hasContingent && w.goLive.isSome && decide (0 < w.backlog)

/-- The hours a single work order contributes to shift month `m`
(its backlog when it is eligible and its computed shift month is `m`). -/
def woShiftContribution (today : Date) (w : NANCWorkOrder) (m : ℤ) : ℚ :=
  match w.goLive with
  | none => 0
  | some g => if eligibleWO w ∧ shiftMonthOf today g = m then w.backlog else 0

/-- Python: the `groupby("Shift_Month").sum()` aggregation producing
`tw_shift_map`, read as a lookup function on month keys. -/
def buildShiftMap (today : Date) (ws : List NANCWorkOrder) (m : ℤ) : ℚ :=
  (ws.map (fun w => woShiftContribution today w m)).sum

/-!  Helper lemmas about the phases of a simulated month. -/

lemma burnPhase_flag (p : Params) (cfg : MonthCfg) (s : EngineState) :
    (burnPhase p cfg s).tailwind_active = s.tailwind_active := rfl

lemma burnPhase_nanc (p : Params) (cfg : MonthCfg) (s : EngineState) :
    (burnPhase p cfg s).NANC_b = s.NANC_b := rfl

lemma shiftPhase_flag (sm : ℕ → ℚ) (m : ℕ) (s : EngineState) :
    (shiftPhase sm m s).tailwind_active = s.tailwind_active := by
  simp only [shiftPhase]
  split <;> [skip; rfl]
  split <;> rfl

lemma shiftPhase_inactive (sm : ℕ → ℚ) (m : ℕ) (s : EngineState)
    (h : s.tailwind_active = false) : shiftPhase sm m s = s := by
  simp [shiftPhase, h]

lemma finishMonth_inactive (p : Params) (cfg : MonthCfg) (m : ℕ) (s : EngineState)
    (h : s.tailwind_active = false) :
    finishMonth p cfg m s =
      (s, { month := m, Total_Backlog := s.TW_b + s.NANC_b + s.AC_b
            TW_Backlog := s.TW_b, NANC_Backlog := s.NANC_b, AC_Backlog := s.AC_b
            Total_Capacity := cfg.TW_cap + cfg.Q2_cap
            Backlog_Months := preCoverage cfg s
            Tailwind_Active := s.tailwind_active }) := by
  simp [finishMonth, h]

lemma finishMonth_flag_row (p : Params) (cfg : MonthCfg) (m : ℕ) (s : EngineState) :
    (finishMonth p cfg m s).2.Tailwind_Active = (finishMonth p cfg m s).1.tailwind_active := by
  simp only [finishMonth]
  split <;> rfl

lemma finishMonth_row_state (p : Params) (cfg : MonthCfg) (m : ℕ) (s : EngineState) :
    (finishMonth p cfg m s).2.TW_Backlog = (finishMonth p cfg m s).1.TW_b ∧
    (finishMonth p cfg m s).2.NANC_Backlog = (finishMonth p cfg m s).1.NANC_b ∧
    (finishMonth p cfg m s).2.AC_Backlog = (finishMonth p cfg m s).1.AC_b := by
  simp only [finishMonth]
  split <;> exact ⟨rfl, rfl, rfl⟩

lemma finishMonth_inactive_flag (p : Params) (cfg : MonthCfg) (m : ℕ) (s : EngineState)
    (h : s.tailwind_active = false) :
    (finishMonth p cfg m s).1.tailwind_active = false := by
  rw [finishMonth_inactive p cfg m s h]
  exact h

lemma stepMonth_flag_row (p : Params) (sm : ℕ → ℚ) (m : ℕ) (s : EngineState) :
    (stepMonth p sm m s).2.Tailwind_Active = (stepMonth p sm m s).1.tailwind_active :=
  finishMonth_flag_row _ _ _ _

lemma stepMonth_inactive_flag (p : Params) (sm : ℕ → ℚ) (m : ℕ) (s : EngineState)
    (h : s.tailwind_active = false) :
    (stepMonth p sm m s).1.tailwind_active = false := by
  unfold stepMonth
  apply finishMonth_inactive_flag
  rw [shiftPhase_flag, burnPhase_flag]
  exact h

/-- Invariant-propagation principle for the month loop: if `Inv` is
preserved by a step and every step under `Inv` emits a row satisfying `P`,
then all rows of `runFrom` satisfy `P`. -/
lemma runFrom_all (p : Params) (sm : ℕ → ℚ) (P : MonthResult → Prop)
    (I : EngineState → Prop)
    (hstep : ∀ m s, I s → I (stepMonth p sm m s).1 ∧ P (stepMonth p sm m s).2) :
    ∀ fuel m s, I s → ∀ r ∈ runFrom p sm s m fuel, P r := by
  intro fuel
  induction fuel with
  | zero => intro m s _ r hr; simp [runFrom] at hr
  | succ f ih =>
      intro m s hs r hr
      rw [runFrom] at hr
      rcases List.mem_cons.mp hr with h | h
      · exact h ▸ (hstep m s hs).2
      · exact ih (m + 1) (stepMonth p sm m s).1 (hstep m s hs).1 r h

lemma runFrom_inactive (p : Params) (sm : ℕ → ℚ) (fuel m : ℕ) (s : EngineState)
    (h : s.tailwind_active = false) :
    ∀ r ∈ runFrom p sm s m fuel, r.Tailwind_Active = false := by
  refine runFrom_all p sm (fun r => r.Tailwind_Active = false)
    (fun s => s.tailwind_active = false) ?_ fuel m s h
  intro m s hs
  refine ⟨stepMonth_inactive_flag p sm m s hs, ?_⟩
  show (stepMonth p sm m s).2.Tailwind_Active = false
  rw [stepMonth_flag_row]
  exact stepMonth_inactive_flag p sm m s hs

/-- In the loop rows, an active row can only be preceded by active rows. -/
lemma runFrom_active_earlier (p : Params) (sm : ℕ → ℚ) :
    ∀ fuel m s i j ri rj, i ≤ j →
      (runFrom p sm s m fuel).get? j = some rj → rj.Tailwind_Active = true →
      (runFrom p sm s m fuel).get? i = some ri → ri.Tailwind_Active = true := by
  intro fuel
  induction fuel with
  | zero => intro m s i j ri rj _ hj _ _; simp [runFrom] at hj
  | succ f ih =>
      intro m s i j ri rj hij hj hja hi
      rw [runFrom] at hj hi
      match j, hj with
      | 0, hj =>
          have hi0 : i = 0 := Nat.le_zero.mp hij
          subst hi0
          simp only [List.get?_cons_zero, Option.some.injEq] at hj hi
          rw [← hi, hj]
          exact hja
      | Nat.succ j0, hj =>
          have hsactive : (stepMonth p sm m s).1.tailwind_active = true := by
            by_contra hfalse
            have hoff : (stepMonth p sm m s).1.tailwind_active = false :=
              Bool.not_eq_true _ ▸ (by simpa using hfalse)
            have hall := runFrom_inactive p sm f (m + 1) (stepMonth p sm m s).1 hoff
            have hmem : rj ∈ runFrom p sm (stepMonth p sm m s).1 (m + 1) f :=
              List.get?_mem (by simpa using hj)
            rw [hall rj hmem] at hja
            exact Bool.false_ne_true hja
          match i, hi with
          | 0, hi =>
              simp only [List.get?_cons_zero, Option.some.injEq] at hi
              rw [← hi, stepMonth_flag_row]
              exact hsactive
          | Nat.succ i0, hi =>
              exact ih (m + 1) (stepMonth p sm m s).1 i0 j0 ri rj
                (Nat.succ_le_succ_iff.mp hij) (by simpa using hj) hja (by simpa using hi)

/-!  Non-negativity of the balances through the phases of a month. -/

lemma burnPhase_nonneg (p : Params) (cfg : MonthCfg) (s : EngineState)
    (hN : 0 ≤ s.NANC_b) :
    0 ≤ (burnPhase p cfg s).TW_b ∧ 0 ≤ (burnPhase p cfg s).NANC_b ∧
    0 ≤ (burnPhase p cfg s).AC_b :=
  ⟨le_max_right _ _, hN, le_max_right _ _⟩

lemma shiftPhase_nonneg (sm : ℕ → ℚ) (m : ℕ) (s : EngineState)
    (hT : 0 ≤ s.TW_b) (hN : 0 ≤ s.NANC_b) (hA : 0 ≤ s.AC_b) :
    0 ≤ (shiftPhase sm m s).TW_b ∧ 0 ≤ (shiftPhase sm m s).NANC_b ∧
    0 ≤ (shiftPhase sm m s).AC_b := by
  simp only [shiftPhase]
  split
  · split
    · rename_i hpos
      refine ⟨?_, ?_, hA⟩
      · have : (0 : ℚ) ≤ min s.NANC_b (sm m) := le_min hN (le_of_lt hpos)
        simp only []
        exact add_nonneg hT this
      · simp only []
        exact sub_nonneg.mpr (min_le_left s.NANC_b (sm m))
    · exact ⟨hT, hN, hA⟩
  · exact ⟨hT, hN, hA⟩

lemma removalAdjust_nonneg (p : Params) (cfg : MonthCfg) (s : EngineState)
    (hN : 0 ≤ s.NANC_b) :
    0 ≤ (removalAdjust p cfg s).NANC_b := by
  simp only [removalAdjust]
  split <;> simpa using hN

lemma finishMonth_nonneg (p : Params) (cfg : MonthCfg) (m : ℕ) (s : EngineState)
    (hT : 0 ≤ s.TW_b) (hN : 0 ≤ s.NANC_b) (hA : 0 ≤ s.AC_b) :
    0 ≤ (finishMonth p cfg m s).1.TW_b ∧ 0 ≤ (finishMonth p cfg m s).1.NANC_b ∧
    0 ≤ (finishMonth p cfg m s).1.AC_b := by
  simp only [finishMonth]
  split
  · refine ⟨le_refl 0, removalAdjust_nonneg p cfg s hN, ?_⟩
    have hT1 : 0 ≤ (removalAdjust p cfg s).TW_b := by
      simp only [removalAdjust]
      split
      · exact le_max_right _ _
      · exact hT
    have hA1 : 0 ≤ (removalAdjust p cfg s).AC_b := by
      simp only [removalAdjust]
      split
      · exact le_max_right _ _
      · exact hA
    exact add_nonneg hA1 hT1
  · exact ⟨hT, hN, hA⟩

lemma stepMonth_nonneg (p : Params) (sm : ℕ → ℚ) (m : ℕ) (s : EngineState)
    (hN : 0 ≤ s.NANC_b) :
    0 ≤ (stepMonth p sm m s).1.TW_b ∧ 0 ≤ (stepMonth p sm m s).1.NANC_b ∧
    0 ≤ (stepMonth p sm m s).1.AC_b := by
  unfold stepMonth
  have hb := burnPhase_nonneg p (monthCfg p m s.tailwind_active) s hN
  have hsft := shiftPhase_nonneg sm m (burnPhase p (monthCfg p m s.tailwind_active) s)
    hb.1 hb.2.1 hb.2.2
  exact finishMonth_nonneg _ _ _ _ hsft.1 hsft.2.1 hsft.2.2

lemma stepMonth_row_state (p : Params) (sm : ℕ → ℚ) (m : ℕ) (s : EngineState) :
    (stepMonth p sm m s).2.TW_Backlog = (stepMonth p sm m s).1.TW_b ∧
    (stepMonth p sm m s).2.NANC_Backlog = (stepMonth p sm m s).1.NANC_b ∧
    (stepMonth p sm m s).2.AC_Backlog = (stepMonth p sm m s).1.AC_b :=
  finishMonth_row_state _ _ _ _

/-- Every emitted row's coverage field is the guarded quotient of its own
total-backlog and total-capacity fields. -/
lemma finishMonth_bm (p : Params) (cfg : MonthCfg) (m : ℕ) (s : EngineState) :
    (finishMonth p cfg m s).2.Backlog_Months =
      (if 0 < (finishMonth p cfg m s).2.Total_Capacity
       then some ((finishMonth p cfg m s).2.Total_Backlog /
                  (finishMonth p cfg m s).2.Total_Capacity)
       else none) := by
  simp only [finishMonth]
  split <;> rfl

lemma stepMonth_bm (p : Params) (sm : ℕ → ℚ) (m : ℕ) (s : EngineState) :
    (stepMonth p sm m s).2.Backlog_Months =
      (if 0 < (stepMonth p sm m s).2.Total_Capacity
       then some ((stepMonth p sm m s).2.Total_Backlog /
                  (stepMonth p sm m s).2.Total_Capacity)
       else none) :=
  finishMonth_bm _ _ _ _

/-- Characterization of the removal branch of the month-end check. -/
lemma finishMonth_fire (p : Params) (cfg : MonthCfg) (m : ℕ) (s : EngineState)
    (hact : s.tailwind_active = true)
    (hfire : coverFires (preCoverage cfg s) p.removal_threshold_months = true) :
    finishMonth p cfg m s =
      (⟨0, (removalAdjust p cfg s).NANC_b,
        (removalAdjust p cfg s).AC_b + (removalAdjust p cfg s).TW_b, false⟩,
       { month := m
         Total_Backlog := 0 + (removalAdjust p cfg s).NANC_b +
           ((removalAdjust p cfg s).AC_b + (removalAdjust p cfg s).TW_b)
         TW_Backlog := 0
         NANC_Backlog := (removalAdjust p cfg s).NANC_b
         AC_Backlog := (removalAdjust p cfg s).AC_b + (removalAdjust p cfg s).TW_b
         Total_Capacity := Q2_capacity_full p
         Backlog_Months :=
           if 0 < Q2_capacity_full p then
             some ((0 + (removalAdjust p cfg s).NANC_b +
               ((removalAdjust p cfg s).AC_b + (removalAdjust p cfg s).TW_b)) /
               Q2_capacity_full p)
           else none
         Tailwind_Active := false }) := by
  simp [finishMonth, hact, hfire]

/-- Characterization of the non-removal branch of the month-end check. -/
lemma finishMonth_nofire (p : Params) (cfg : MonthCfg) (m : ℕ) (s : EngineState)
    (h : coverFires (preCoverage cfg s) p.removal_threshold_months = false) :
    finishMonth p cfg m s =
      (s, { month := m, Total_Backlog := s.TW_b + s.NANC_b + s.AC_b
            TW_Backlog := s.TW_b, NANC_Backlog := s.NANC_b, AC_Backlog := s.AC_b
            Total_Capacity := cfg.TW_cap + cfg.Q2_cap
            Backlog_Months := preCoverage cfg s
            Tailwind_Active := s.tailwind_active }) := by
  simp [finishMonth, h]

/-!  Claim theorems. -/

/-- C1: if the engine is Active in month `m` and the post-burn/shift
coverage (total backlog over Temporary-plus-permanent capacity) is defined
and at most the removal threshold, the engine transitions to Removed that
month: the row already reflects the post-transition state (flag off,
Temporary zeroed, the remaining Temporary balance folded into Actionable,
and coverage re-reported against permanent-only capacity); moreover over
any full run the active flag is true on a prefix of the emitted rows and
false on the suffix, never returning to true. -/
theorem C1_removal_transition :
    (∀ (p : Params) (sm : ℕ → ℚ) (month : ℕ) (s : EngineState),
      s.tailwind_active = true →
      coverFires
        (preCoverage (monthCfg p month s.tailwind_active)
          (shiftPhase sm month (burnPhase p (monthCfg p month s.tailwind_active) s)))
        p.removal_threshold_months = true →
      (stepMonth p sm month s).1.tailwind_active = false ∧
      (stepMonth p sm month s).2.Tailwind_Active = false ∧
      (stepMonth p sm month s).2.TW_Backlog = 0 ∧
      (stepMonth p sm month s).2.AC_Backlog =
        (removalAdjust p (monthCfg p month s.tailwind_active)
          (shiftPhase sm month (burnPhase p (monthCfg p month s.tailwind_active) s))).AC_b +
        (removalAdjust p (monthCfg p month s.tailwind_active)
          (shiftPhase sm month (burnPhase p (monthCfg p month s.tailwind_active) s))).TW_b ∧
      (stepMonth p sm month s).2.Total_Capacity = Q2_capacity_full p ∧
      (stepMonth p sm month s).2.Backlog_Months =
        (if 0 < Q2_capacity_full p
         then some ((stepMonth p sm month s).2.Total_Backlog / Q2_capacity_full p)
         else none)) ∧
    (∀ (p : Params) (i j : ℕ) (ri rj : MonthResult), i ≤ j →
      (run_tailwind_model p).get? i = some ri →
      (run_tailwind_model p).get? j = some rj →
      rj.Tailwind_Active = true → ri.Tailwind_Active = true) := by
  constructor
  · intro p sm month s hact hfire
    unfold stepMonth
    rw [finishMonth_fire p _ month _
      (by rw [shiftPhase_flag, burnPhase_flag]; exact hact) hfire]
    exact ⟨rfl, rfl, rfl, rfl, rfl, rfl⟩
  · intro p i j ri rj hij hi hj hja
    unfold run_tailwind_model at hi hj
    match j, hj with
    | 0, hj =>
        have hi0 : i = 0 := Nat.le_zero.mp hij
        subst hi0
        simp only [List.get?_cons_zero, Option.some.injEq] at hi
        rw [← hi]
        rfl
    | Nat.succ j0, hj =>
        match i, hi with
        | 0, hi =>
            simp only [List.get?_cons_zero, Option.some.injEq] at hi
            rw [← hi]
            rfl
        | Nat.succ i0, hi =>
            exact runFrom_active_earlier p (foldShiftMap p.tw_shift_map) p.months 1
              (initState p) i0 j0 ri rj (Nat.succ_le_succ_iff.mp hij)
              (by simpa using hj) hja (by simpa using hi)

/-- Parameters used to witness C1: one permanent FTE with utilization
3/520 (so monthly permanent capacity is exactly 1), a Blocked balance of
100 and removal threshold 0, over one month. -/
def pC1w : Params :=
  { total_backlog := 100, total_TW_backlog := 0, total_NANC_backlog := 100
    tw_headcount := 0, q2_headcount := 1, utilization := 3 / 520
    qtr_demand_total := 0, q2_capacity_to_q2_pct := 1, tw_share_of_demand := 1
    months := 1, tw_shift_map := fun _ => 0, removal_threshold_months := 0
    tw_capacity_reduction_month := 0, model_diff_demand_after_removal := false
    post_removal_qtr_demand_total := none, modify_demand_after_12_months := false
    post_12_qtr_demand_total := none }

/-- Witness for C1: the transition clause fired at an explicit state whose
coverage is 0 (threshold 0), and the prefix clause applied to the run of
`pC1w`, whose month-1 row is still active. -/
theorem C1_removal_transition_witness :
    ((⟨0, 0, 0, true⟩ : EngineState).tailwind_active = true ∧
     coverFires
       (preCoverage (monthCfg pC1w 1 (⟨0, 0, 0, true⟩ : EngineState).tailwind_active)
         (shiftPhase (fun _ => 0) 1
           (burnPhase pC1w (monthCfg pC1w 1 (⟨0, 0, 0, true⟩ : EngineState).tailwind_active)
             ⟨0, 0, 0, true⟩)))
       pC1w.removal_threshold_months = true ∧
     (stepMonth pC1w (fun _ => 0) 1 ⟨0, 0, 0, true⟩).2.Tailwind_Active = false) ∧
    ((0 : ℕ) ≤ 1 ∧
     (run_tailwind_model pC1w).get? 0 = some (month0Row pC1w) ∧
     (run_tailwind_model pC1w).get? 1 =
       some ⟨1, 100, 0, 100, 0, 1, some 100, true⟩ ∧
     (month0Row pC1w).Tailwind_Active = true) :=
  ⟨⟨rfl,
    by norm_num [coverFires, preCoverage, shiftPhase, burnPhase, monthCfg, pC1w,
      TW_capacity, Q2_capacity_full, q2CapToAC, q2CapToTW, acBurn, unusedACCap, twBurn,
      min_def, max_def],
    ((C1_removal_transition.1 pC1w (fun _ => 0) 1 ⟨0, 0, 0, true⟩ rfl
      (by norm_num [coverFires, preCoverage, shiftPhase, burnPhase, monthCfg, pC1w,
        TW_capacity, Q2_capacity_full, q2CapToAC, q2CapToTW, acBurn, unusedACCap, twBurn,
        min_def, max_def])).2).1⟩,
   ⟨by norm_num, rfl,
    by norm_num [run_tailwind_model, runFrom, stepMonth, finishMonth, burnPhase,
      shiftPhase, monthCfg, preCoverage, coverFires, removalAdjust, initState, month0Row,
      TW_capacity, Q2_capacity_full, q2CapToAC, q2CapToTW, acBurn, unusedACCap, twBurn,
      foldShiftMap, pC1w, min_def, max_def],
    C1_removal_transition.2 pC1w 0 1 (month0Row pC1w)
      ⟨1, 100, 0, 100, 0, 1, some 100, true⟩ (by norm_num) rfl
      (by norm_num [run_tailwind_model, runFrom, stepMonth, finishMonth, burnPhase,
        shiftPhase, monthCfg, preCoverage, coverFires, removalAdjust, initState, month0Row,
        TW_capacity, Q2_capacity_full, q2CapToAC, q2CapToTW, acBurn, unusedACCap, twBurn,
        foldShiftMap, pC1w, min_def, max_def]) rfl⟩⟩

/-- Inputs falsifying C2 as stated: a negative Temporary cohort total
(over-logged work) is passed straight into the month-0 row unclamped. -/
def pC2x : Params :=
  { total_backlog := 0, total_TW_backlog := -1, total_NANC_backlog := 0
    tw_headcount := 0, q2_headcount := 0, utilization := 0
    qtr_demand_total := 0, q2_capacity_to_q2_pct := 0, tw_share_of_demand := 0
    months := 0, tw_shift_map := fun _ => 0, removal_threshold_months := 0
    tw_capacity_reduction_month := 0, model_diff_demand_after_removal := false
    post_removal_qtr_demand_total := none, modify_demand_after_12_months := false
    post_12_qtr_demand_total := none }

/-- Counterexample to C2 as stated: with `total_TW_backlog = -1` the
month-0 row reports a negative Temporary balance, so the balances are not
clamped at initialization for every input. -/
theorem C2_balance_nonneg_cex :
    pC2x.total_TW_backlog = -1 ∧
    ¬ ∀ r ∈ run_tailwind_model pC2x,
        0 ≤ r.TW_Backlog ∧ 0 ≤ r.NANC_Backlog ∧ 0 ≤ r.AC_Backlog := by
  refine ⟨rfl, fun h => ?_⟩
  have h0 := (h (month0Row pC2x) (List.mem_cons_self _ _)).1
  norm_num [month0Row, initState, pC2x] at h0

/-- C2 (amended): when the Temporary and Blocked cohort totals are
non-negative, every emitted row reports non-negative balances in all three
buckets (the Actionable residual is clamped at initialization and every
per-month update clamps at zero). -/
theorem C2_balance_nonneg (p : Params)
    (hTW : 0 ≤ p.total_TW_backlog) (hN : 0 ≤ p.total_NANC_backlog) :
    ∀ r ∈ run_tailwind_model p,
      0 ≤ r.TW_Backlog ∧ 0 ≤ r.NANC_Backlog ∧ 0 ≤ r.AC_Backlog := by
  intro r hr
  unfold run_tailwind_model at hr
  rcases List.mem_cons.mp hr with h | h
  · subst h
    exact ⟨hTW, hN, le_max_right _ _⟩
  · refine runFrom_all p (foldShiftMap p.tw_shift_map)
      (fun r => 0 ≤ r.TW_Backlog ∧ 0 ≤ r.NANC_Backlog ∧ 0 ≤ r.AC_Backlog)
      (fun s => 0 ≤ s.TW_b ∧ 0 ≤ s.NANC_b ∧ 0 ≤ s.AC_b) ?_
      p.months 1 (initState p) ⟨hTW, hN, le_max_right _ _⟩ r h
    intro m s hs
    have hnext := stepMonth_nonneg p (foldShiftMap p.tw_shift_map) m s hs.2.1
    have hrow := stepMonth_row_state p (foldShiftMap p.tw_shift_map) m s
    refine ⟨hnext, ?_⟩
    show 0 ≤ (stepMonth p (foldShiftMap p.tw_shift_map) m s).2.TW_Backlog ∧
      0 ≤ (stepMonth p (foldShiftMap p.tw_shift_map) m s).2.NANC_Backlog ∧
      0 ≤ (stepMonth p (foldShiftMap p.tw_shift_map) m s).2.AC_Backlog
    rw [hrow.1, hrow.2.1, hrow.2.2]
    exact hnext

/-- Witness for C2 at non-negative cohort totals (the run of `pC1w`,
month-0 row). -/
theorem C2_balance_nonneg_witness :
    (0 ≤ pC1w.total_TW_backlog ∧ 0 ≤ pC1w.total_NANC_backlog) ∧
    (0 ≤ (month0Row pC1w).TW_Backlog ∧ 0 ≤ (month0Row pC1w).NANC_Backlog ∧
     0 ≤ (month0Row pC1w).AC_Backlog) :=
  ⟨⟨by norm_num [pC1w], by norm_num [pC1w]⟩,
   C2_balance_nonneg pC1w (by norm_num [pC1w]) (by norm_num [pC1w]) (month0Row pC1w)
     (List.mem_cons_self _ _)⟩

/-- C3: in an Active month (non-negative balances and capacities, allocation
fraction in [0,1]) Actionable is burned first by
`min(AC balance, permanent capacity x allocation share)`; the allocated
Actionable capacity splits exactly into the part burned and the unused
remainder handed to Temporary; capacity is only redirected when Actionable
is fully burned; and both burns are non-negative and bounded by their
balances, Temporary's burn drawing on its own capacity, the
`(1 - share)` permanent slice and the reallocated remainder. -/
theorem C3_burn_allocation (p : Params) (cfg : MonthCfg) (s : EngineState)
    (hact : s.tailwind_active = true) (hAC : 0 ≤ s.AC_b) (hTW : 0 ≤ s.TW_b)
    (hQ2 : 0 ≤ cfg.Q2_cap) (hTWc : 0 ≤ cfg.TW_cap)
    (hp0 : 0 ≤ p.q2_capacity_to_q2_pct) (hp1 : p.q2_capacity_to_q2_pct ≤ 1) :
    acBurn p cfg s = min s.AC_b (cfg.Q2_cap * p.q2_capacity_to_q2_pct) ∧
    0 ≤ acBurn p cfg s ∧ acBurn p cfg s ≤ s.AC_b ∧
    twBurn p cfg s =
      min s.TW_b (cfg.TW_cap +
        (cfg.Q2_cap * (1 - p.q2_capacity_to_q2_pct) + unusedACCap p cfg s)) ∧
    0 ≤ twBurn p cfg s ∧ twBurn p cfg s ≤ s.TW_b ∧
    acBurn p cfg s + unusedACCap p cfg s = q2CapToAC p cfg s.tailwind_active ∧
    (0 < unusedACCap p cfg s → acBurn p cfg s = s.AC_b) ∧
    (burnPhase p cfg s).AC_b = max (s.AC_b - acBurn p cfg s + cfg.AC_inc) 0 ∧
    (burnPhase p cfg s).TW_b = max (s.TW_b - twBurn p cfg s + cfg.TW_inc) 0 := by
  have hcapAC : q2CapToAC p cfg s.tailwind_active = cfg.Q2_cap * p.q2_capacity_to_q2_pct := by
    simp [q2CapToAC, hact]
  have hcapTW : q2CapToTW p cfg s.tailwind_active = cfg.Q2_cap * (1 - p.q2_capacity_to_q2_pct) := by
    simp [q2CapToTW, hact]
  have hcapAC0 : 0 ≤ q2CapToAC p cfg s.tailwind_active := by
    rw [hcapAC]; exact mul_nonneg hQ2 hp0
  have hcapTW0 : 0 ≤ q2CapToTW p cfg s.tailwind_active := by
    rw [hcapTW]; exact mul_nonneg hQ2 (by linarith)
  refine ⟨by rw [acBurn, hcapAC], le_min hAC hcapAC0, min_le_left _ _,
    by rw [twBurn, hcapTW], ?_, min_le_left _ _, ?_, ?_, rfl, rfl⟩
  · exact le_min hTW (add_nonneg hTWc (add_nonneg hcapTW0 (le_max_right _ _)))
  · rcases le_total s.AC_b (q2CapToAC p cfg s.tailwind_active) with h | h
    · rw [acBurn, min_eq_left h, unusedACCap, acBurn, min_eq_left h,
        max_eq_left (sub_nonneg.mpr h)]
      ring
    · rw [acBurn, min_eq_right h, unusedACCap, acBurn, min_eq_right h, sub_self,
        max_self, add_zero]
  · intro hun
    rw [unusedACCap] at hun
    have hlt : 0 < q2CapToAC p cfg s.tailwind_active - acBurn p cfg s := by
      rcases lt_max_iff.mp hun with h | h
      · exact h
      · exact absurd h (lt_irrefl 0)
    have : acBurn p cfg s < q2CapToAC p cfg s.tailwind_active := by linarith
    rw [acBurn] at this ⊢
    rcases min_lt_iff.mp this with h | h
    · exact min_eq_left (le_of_lt h)
    · exact absurd h (lt_irrefl _)

/-- Witness for C3 at a concrete Active state: balances (TW, AC) = (5, 3),
permanent capacity 1 with allocation share 1/2 and no Temporary capacity. -/
theorem C3_burn_allocation_witness :
    ((⟨5, 0, 3, true⟩ : EngineState).tailwind_active = true ∧
     (0 : ℚ) ≤ (⟨5, 0, 3, true⟩ : EngineState).AC_b ∧
     (0 : ℚ) ≤ (⟨5, 0, 3, true⟩ : EngineState).TW_b ∧
     (0 : ℚ) ≤ (⟨0, 1, 0, 0⟩ : MonthCfg).Q2_cap ∧
     (0 : ℚ) ≤ (⟨0, 1, 0, 0⟩ : MonthCfg).TW_cap ∧
     (0 : ℚ) ≤ pC1w.q2_capacity_to_q2_pct ∧ pC1w.q2_capacity_to_q2_pct ≤ 1) ∧
    (acBurn pC1w ⟨0, 1, 0, 0⟩ ⟨5, 0, 3, true⟩ =
      min ((⟨5, 0, 3, true⟩ : EngineState).AC_b)
        ((⟨0, 1, 0, 0⟩ : MonthCfg).Q2_cap * pC1w.q2_capacity_to_q2_pct) ∧
     0 ≤ acBurn pC1w ⟨0, 1, 0, 0⟩ ⟨5, 0, 3, true⟩ ∧
     acBurn pC1w ⟨0, 1, 0, 0⟩ ⟨5, 0, 3, true⟩ ≤ (⟨5, 0, 3, true⟩ : EngineState).AC_b) :=
  ⟨⟨rfl, by norm_num, by norm_num, by norm_num, by norm_num,
    by norm_num [pC1w], by norm_num [pC1w]⟩,
   by
    have h := C3_burn_allocation pC1w ⟨0, 1, 0, 0⟩ ⟨5, 0, 3, true⟩ rfl
      (by norm_num) (by norm_num) (by norm_num) (by norm_num)
      (by norm_num [pC1w]) (by norm_num [pC1w])
    exact ⟨h.1, h.2.1, h.2.2.1⟩⟩

/-- Inputs falsifying C4: Temporary backlog 1 against Temporary capacity
exactly 1 (utilization 3/520), threshold 0; the backlog is fully burned in
month 1, coverage becomes 0 and the removal fires despite the threshold 0. -/
def pC4x : Params :=
  { total_backlog := 1, total_TW_backlog := 1, total_NANC_backlog := 0
    tw_headcount := 1, q2_headcount := 0, utilization := 3 / 520
    qtr_demand_total := 0, q2_capacity_to_q2_pct := 1, tw_share_of_demand := 1
    months := 1, tw_shift_map := fun _ => 0, removal_threshold_months := 0
    tw_capacity_reduction_month := 0, model_diff_demand_after_removal := false
    post_removal_qtr_demand_total := none, modify_demand_after_12_months := false
    post_12_qtr_demand_total := none }

/-- Counterexample to C4 as stated: with threshold 0 the active flag does
not stay true for the whole horizon — the month-1 row of `pC4x` is already
Removed (its backlog reached 0 with positive capacity, coverage 0 <= 0). -/
theorem C4_threshold_zero_cex :
    pC4x.removal_threshold_months = 0 ∧
    ((run_tailwind_model pC4x).get? 1).map (fun r => r.Tailwind_Active) =
      some false := by
  refine ⟨rfl, ?_⟩
  norm_num [run_tailwind_model, runFrom, stepMonth, finishMonth, burnPhase,
    shiftPhase, monthCfg, preCoverage, coverFires, removalAdjust, initState, month0Row,
    TW_capacity, Q2_capacity_full, q2CapToAC, q2CapToTW, acBurn, unusedACCap, twBurn,
    foldShiftMap, pC4x, min_def, max_def]

/-- C4 (amended): with removal threshold 0 the transition never fires in a
month whose coverage is defined and positive, and never fires in the
degenerate zero-capacity month, where the reported coverage is null; it
can only fire in a month whose pre-removal coverage is defined and at most
0 (total backlog exactly 0 for realistic non-negative balances) — so the
flag need not stay true for the whole horizon. -/
theorem C4_threshold_zero (p : Params) (sm : ℕ → ℚ) (month : ℕ) (s : EngineState)
    (hthr : p.removal_threshold_months = 0) (hact : s.tailwind_active = true) :
    (∀ v : ℚ,
      preCoverage (monthCfg p month s.tailwind_active)
        (shiftPhase sm month (burnPhase p (monthCfg p month s.tailwind_active) s)) = some v →
      0 < v →
      (stepMonth p sm month s).2.Tailwind_Active = true ∧
      (stepMonth p sm month s).1.tailwind_active = true ∧
      (stepMonth p sm month s).2.Backlog_Months = some v) ∧
    (preCoverage (monthCfg p month s.tailwind_active)
        (shiftPhase sm month (burnPhase p (monthCfg p month s.tailwind_active) s)) = none →
      (stepMonth p sm month s).2.Tailwind_Active = true ∧
      (stepMonth p sm month s).2.Backlog_Months = none) ∧
    ((stepMonth p sm month s).2.Tailwind_Active = false →
      ∃ v : ℚ,
        preCoverage (monthCfg p month s.tailwind_active)
          (shiftPhase sm month (burnPhase p (monthCfg p month s.tailwind_active) s)) = some v ∧
        v ≤ 0) := by
  have hact2 : (shiftPhase sm month
      (burnPhase p (monthCfg p month s.tailwind_active) s)).tailwind_active = true := by
    rw [shiftPhase_flag, burnPhase_flag]; exact hact
  refine ⟨?_, ?_, ?_⟩
  · intro v hv hvpos
    have hnof : coverFires
        (preCoverage (monthCfg p month s.tailwind_active)
          (shiftPhase sm month (burnPhase p (monthCfg p month s.tailwind_active) s)))
        p.removal_threshold_months = false := by
      rw [hv, hthr]
      simp [coverFires]
      linarith
    unfold stepMonth
    rw [finishMonth_nofire p _ month _ hnof]
    exact ⟨hact2, hact2, hv⟩
  · intro hnone
    have hnof : coverFires
        (preCoverage (monthCfg p month s.tailwind_active)
          (shiftPhase sm month (burnPhase p (monthCfg p month s.tailwind_active) s)))
        p.removal_threshold_months = false := by
      rw [hnone]; rfl
    unfold stepMonth
    rw [finishMonth_nofire p _ month _ hnof]
    exact ⟨hact2, hnone⟩
  · intro hoff
    by_cases hfire : coverFires
        (preCoverage (monthCfg p month s.tailwind_active)
          (shiftPhase sm month (burnPhase p (monthCfg p month s.tailwind_active) s)))
        p.removal_threshold_months = true
    · rcases hbm : preCoverage (monthCfg p month s.tailwind_active)
          (shiftPhase sm month (burnPhase p (monthCfg p month s.tailwind_active) s)) with _ | v
      · rw [hbm] at hfire
        exact absurd hfire (by simp [coverFires])
      · refine ⟨v, rfl, ?_⟩
        rw [hbm] at hfire
        simp [coverFires, hthr] at hfire
        exact hfire
    · exfalso
      have hnof : coverFires
          (preCoverage (monthCfg p month s.tailwind_active)
            (shiftPhase sm month (burnPhase p (monthCfg p month s.tailwind_active) s)))
          p.removal_threshold_months = false := by
        simpa using hfire
      unfold stepMonth at hoff
      rw [finishMonth_nofire p _ month _ hnof] at hoff
      simp only [] at hoff
      rw [hact2] at hoff
      exact absurd hoff (by simp)

/-- Witness for C4 at `pC1w`, month 1, the initial state: coverage is 100
(positive), so the step stays Active. -/
theorem C4_threshold_zero_witness :
    (pC1w.removal_threshold_months = 0 ∧
     (initState pC1w).tailwind_active = true ∧
     preCoverage (monthCfg pC1w 1 (initState pC1w).tailwind_active)
       (shiftPhase (fun _ => 0) 1
         (burnPhase pC1w (monthCfg pC1w 1 (initState pC1w).tailwind_active)
           (initState pC1w))) = some 100 ∧
     (0 : ℚ) < 100) ∧
    (stepMonth pC1w (fun _ => 0) 1 (initState pC1w)).2.Tailwind_Active = true :=
  ⟨⟨rfl, rfl,
    by norm_num [preCoverage, shiftPhase, burnPhase, monthCfg, initState, pC1w,
      TW_capacity, Q2_capacity_full, q2CapToAC, q2CapToTW, acBurn, unusedACCap, twBurn,
      min_def, max_def],
    by norm_num⟩,
   ((C4_threshold_zero pC1w (fun _ => 0) 1 (initState pC1w) rfl rfl).1 100
     (by norm_num [preCoverage, shiftPhase, burnPhase, monthCfg, initState, pC1w,
       TW_capacity, Q2_capacity_full, q2CapToAC, q2CapToTW, acBurn, unusedACCap, twBurn,
       min_def, max_def])
     (by norm_num)).1⟩

/-- Inputs falsifying C5: Blocked balance 100, permanent capacity 1,
threshold 100 so removal fires in month 1; the shift schedule matures 100
hours in month 2, strictly after removal. -/
def pC5x : Params :=
  { total_backlog := 100, total_TW_backlog := 0, total_NANC_backlog := 100
    tw_headcount := 0, q2_headcount := 1, utilization := 3 / 520
    qtr_demand_total := 0, q2_capacity_to_q2_pct := 1, tw_share_of_demand := 1
    months := 2, tw_shift_map := fun m => if m = 2 then 100 else 0
    removal_threshold_months := 100
    tw_capacity_reduction_month := 0, model_diff_demand_after_removal := false
    post_removal_qtr_demand_total := none, modify_demand_after_12_months := false
    post_12_qtr_demand_total := none }

/-- Counterexample to C5 as stated: in `pC5x` removal fires in month 1,
yet in month 2 the scheduled 100 hours do not move — the Blocked balance
stays 100 and Actionable stays 0, instead of Blocked dropping by 100 and
Actionable rising by 100. -/
theorem C5_post_removal_shift_cex :
    pC5x.tw_shift_map 2 = 100 ∧
    ((run_tailwind_model pC5x).get? 1).map (fun r => r.Tailwind_Active) = some false ∧
    ((run_tailwind_model pC5x).get? 2).map
      (fun r => (r.NANC_Backlog, r.AC_Backlog)) = some (100, 0) := by
  refine ⟨rfl, ?_, ?_⟩ <;>
  norm_num [run_tailwind_model, runFrom, stepMonth, finishMonth, burnPhase,
    shiftPhase, monthCfg, preCoverage, coverFires, removalAdjust, initState, month0Row,
    TW_capacity, Q2_capacity_full, q2CapToAC, q2CapToTW, acBurn, unusedACCap, twBurn,
    foldShiftMap, pC5x, min_def, max_def]

/-- C5 (amended): in every month after removal the scheduled shift is not
applied at all: the shift phase is the identity on a Removed state, and a
whole Removed-state month leaves the Blocked balance unchanged (the
maturing hours land neither in Actionable nor in Temporary; Blocked work
stays Blocked forever once the temporary team is removed). -/
theorem C5_post_removal_shift (p : Params) (sm : ℕ → ℚ) (m : ℕ) (s : EngineState)
    (h : s.tailwind_active = false) :
    shiftPhase sm m s = s ∧
    (stepMonth p sm m s).1.NANC_b = s.NANC_b ∧
    (stepMonth p sm m s).2.NANC_Backlog = s.NANC_b ∧
    (stepMonth p sm m s).2.Tailwind_Active = false := by
  have hb : (burnPhase p (monthCfg p m s.tailwind_active) s).tailwind_active = false := h
  refine ⟨shiftPhase_inactive sm m s h, ?_, ?_, ?_⟩
  · simp only [stepMonth]
    rw [shiftPhase_inactive _ _ _ hb, finishMonth_inactive _ _ _ _ hb]
    rfl
  · simp only [stepMonth]
    rw [shiftPhase_inactive _ _ _ hb, finishMonth_inactive _ _ _ _ hb]
    rfl
  · rw [stepMonth_flag_row]
    exact stepMonth_inactive_flag p sm m s h

/-- Witness for C5 at a concrete Removed state with Blocked balance 100
and a scheduled shift of 100 in the current month. -/
theorem C5_post_removal_shift_witness :
    ((⟨0, 100, 0, false⟩ : EngineState).tailwind_active = false) ∧
    (shiftPhase (fun m => if m = 2 then 100 else 0) 2 ⟨0, 100, 0, false⟩ =
      ⟨0, 100, 0, false⟩ ∧
     (stepMonth pC5x (fun m => if m = 2 then 100 else 0) 2
       ⟨0, 100, 0, false⟩).2.NANC_Backlog = 100) :=
  ⟨rfl,
   (C5_post_removal_shift pC5x (fun m => if m = 2 then 100 else 0) 2
      ⟨0, 100, 0, false⟩ rfl).1,
   (C5_post_removal_shift pC5x (fun m => if m = 2 then 100 else 0) 2
      ⟨0, 100, 0, false⟩ rfl).2.2.1⟩

/-- Inputs falsifying C6: quarterly demand 300 with the post-removal
demand option disabled; removal fires in month 1 (threshold 200). -/
def pC6x : Params :=
  { total_backlog := 100, total_TW_backlog := 0, total_NANC_backlog := 100
    tw_headcount := 0, q2_headcount := 1, utilization := 3 / 520
    qtr_demand_total := 300, q2_capacity_to_q2_pct := 1, tw_share_of_demand := 1
    months := 2, tw_shift_map := fun _ => 0, removal_threshold_months := 200
    tw_capacity_reduction_month := 0, model_diff_demand_after_removal := false
    post_removal_qtr_demand_total := none, modify_demand_after_12_months := false
    post_12_qtr_demand_total := none }

/-- Counterexample to C6 as stated: with
`model_diff_demand_after_removal = false` a Removed month receives zero
incoming demand, not one third of the baseline quarterly demand (which
would be 100); in the run of `pC6x` the month-2 Actionable balance is
100 - 1 + 0 = 99, not 100 - 1 + 100 = 199. -/
theorem C6_removed_demand_cex :
    pC6x.model_diff_demand_after_removal = false ∧
    pC6x.qtr_demand_total * (1 / 3) = 100 ∧
    (monthCfg pC6x 2 false).AC_inc = 0 ∧
    ((run_tailwind_model pC6x).get? 1).map (fun r => r.Tailwind_Active) = some false ∧
    ((run_tailwind_model pC6x).get? 2).map (fun r => r.AC_Backlog) = some 99 := by
  refine ⟨rfl, by norm_num [pC6x], by norm_num [monthCfg, pC6x], ?_, ?_⟩ <;>
  norm_num [run_tailwind_model, runFrom, stepMonth, finishMonth, burnPhase,
    shiftPhase, monthCfg, preCoverage, coverFires, removalAdjust, initState, month0Row,
    TW_capacity, Q2_capacity_full, q2CapToAC, q2CapToTW, acBurn, unusedACCap, twBurn,
    foldShiftMap, pC6x, min_def, max_def]

/-- C6 (amended): in every Removed-state month, Temporary capacity and
incoming are zero, the Actionable bucket is pre-allocated all of the
permanent capacity (none supports Temporary), and the monthly incoming is
one third of the post-removal figure (falling back to the baseline
quarterly demand when that figure is None) only when
`model_diff_demand_after_removal` is set — otherwise it is zero, and in
particular the after-12-months override never applies after removal; the
month's Actionable balance update burns with the full permanent capacity
and adds exactly that incoming. -/
theorem C6_removed_month (p : Params) (sm : ℕ → ℚ) (m : ℕ) (s : EngineState)
    (h : s.tailwind_active = false) :
    (monthCfg p m false).TW_cap = 0 ∧
    (monthCfg p m false).TW_inc = 0 ∧
    (monthCfg p m false).Q2_cap = Q2_capacity_full p ∧
    q2CapToAC p (monthCfg p m false) false = Q2_capacity_full p ∧
    q2CapToTW p (monthCfg p m false) false = 0 ∧
    (monthCfg p m false).AC_inc =
      (if p.model_diff_demand_after_removal
       then (p.post_removal_qtr_demand_total.getD p.qtr_demand_total) * (1 / 3)
       else 0) ∧
    (stepMonth p sm m s).2.AC_Backlog =
      max (s.AC_b - min s.AC_b (Q2_capacity_full p) + (monthCfg p m false).AC_inc) 0 ∧
    (stepMonth p sm m s).2.TW_Backlog =
      max (s.TW_b - twBurn p (monthCfg p m false) s + (monthCfg p m false).TW_inc) 0 := by
  have hb : (burnPhase p (monthCfg p m s.tailwind_active) s).tailwind_active = false := h
  have hac : acBurn p (monthCfg p m false) s = min s.AC_b (Q2_capacity_full p) := by
    simp [acBurn, q2CapToAC, h, monthCfg]
  refine ⟨by simp [monthCfg], by simp [monthCfg], by simp [monthCfg],
    by simp [q2CapToAC, monthCfg], by simp [q2CapToTW],
    by simp [monthCfg], ?_, ?_⟩
  · simp only [stepMonth]
    rw [shiftPhase_inactive _ _ _ hb, finishMonth_inactive _ _ _ _ hb]
    show (burnPhase p (monthCfg p m s.tailwind_active) s).AC_b = _
    rw [h]
    unfold burnPhase
    rw [hac]
  · simp only [stepMonth]
    rw [shiftPhase_inactive _ _ _ hb, finishMonth_inactive _ _ _ _ hb]
    show (burnPhase p (monthCfg p m s.tailwind_active) s).TW_b = _
    rw [h]
    rfl

/-- Witness for C6 at a Removed state with Actionable balance 100 under
the parameters of `pC6x` (permanent capacity 1, no post-removal demand
option). -/
theorem C6_removed_month_witness :
    ((⟨0, 100, 100, false⟩ : EngineState).tailwind_active = false) ∧
    ((monthCfg pC6x 2 false).TW_cap = 0 ∧
     (monthCfg pC6x 2 false).TW_inc = 0 ∧
     q2CapToAC pC6x (monthCfg pC6x 2 false) false = Q2_capacity_full pC6x ∧
     (stepMonth pC6x (fun _ => 0) 2 ⟨0, 100, 100, false⟩).2.AC_Backlog =
       max ((100 : ℚ) - min (100 : ℚ) (Q2_capacity_full pC6x) +
         (monthCfg pC6x 2 false).AC_inc) 0) :=
  ⟨rfl,
   by
    have hyp := C6_removed_month pC6x (fun _ => 0) 2 ⟨0, 100, 100, false⟩ rfl
    exact ⟨hyp.1, hyp.2.1, hyp.2.2.2.1, hyp.2.2.2.2.2.2.1⟩⟩

/-- Today's date used in the C7 counterexample: day 15 of month 0. -/
def todayC7 : Date := ⟨0, 15⟩

/-- A Blocked work order whose go-live is day 1 of the current month,
which lies before `todayC7`. -/
def woPastC7 : NANCWorkOrder := ⟨100, true, some ⟨0, 1⟩⟩

/-- Counterexample to C7 as stated: a contingent go-live in the current
calendar month but earlier than today is clamped to the first of next
month, so the schedule is month 2 -> 100, not month 1 -> 100. -/
theorem C7_shift_schedule_cex :
    (woPastC7.goLive.getD todayC7).ym = todayC7.ym ∧
    woPastC7.backlog = 100 ∧
    buildShiftMap todayC7 [woPastC7] 1 = 0 ∧
    buildShiftMap todayC7 [woPastC7] 2 = 100 := by
  refine ⟨rfl, rfl, ?_, ?_⟩ <;>
  norm_num [buildShiftMap, woShiftContribution, eligibleWO, shiftMonthOf,
    goLiveMonthOffset, clampGoLive, dateBefore, todayC7, woPastC7]

/-- C7 (amended): a single Blocked work order with positive backlog and a
contingent go-live in the current calendar month that is not before today
yields exactly the schedule mapping month 1 to its backlog; a go-live
before today (even one earlier in the current month) is clamped to the
first day of the next month (hence shifts at month 2, not month 1); every
month carrying hours in any produced schedule is at least 1; and in the
simulation an Active month whose scheduled shift equals the Blocked
balance moves exactly that amount from Blocked into Temporary. -/
theorem C7_shift_schedule :
    (∀ (today g : Date) (b : ℚ), g.ym = today.ym → dateBefore g today = false →
      0 < b →
      buildShiftMap today [⟨b, true, some g⟩] 1 = b ∧
      ∀ m : ℤ, m ≠ 1 → buildShiftMap today [⟨b, true, some g⟩] m = 0) ∧
    (∀ today g : Date, dateBefore g today = true →
      clampGoLive today g = ⟨today.ym + 1, 1⟩) ∧
    (∀ (today : Date) (ws : List NANCWorkOrder) (m : ℤ),
      buildShiftMap today ws m ≠ 0 → 1 ≤ m) ∧
    (∀ (sm : ℕ → ℚ) (s : EngineState), s.tailwind_active = true →
      0 < s.NANC_b → sm 1 = s.NANC_b →
      (shiftPhase sm 1 s).NANC_b = 0 ∧
      (shiftPhase sm 1 s).TW_b = s.TW_b + s.NANC_b) := by
  refine ⟨?_, ?_, ?_, ?_⟩
  · intro today g b hym hnb hb
    have hsm : shiftMonthOf today g = 1 := by
      simp [shiftMonthOf, goLiveMonthOffset, clampGoLive, hnb, hym]
    constructor
    · simp [buildShiftMap, woShiftContribution, eligibleWO, hsm, hb]
    · intro m hm
      have hne : ¬ shiftMonthOf today g = m := by
        rw [hsm]
        exact fun h1 => hm h1.symm
      simp [buildShiftMap, woShiftContribution, eligibleWO, hne]
  · intro today g h
    simp [clampGoLive, h]
  · intro today ws m hne
    by_contra hlt
    apply hne
    apply List.sum_eq_zero
    intro x hx
    rcases List.mem_map.mp hx with ⟨w, _, hw⟩
    rw [← hw]
    unfold woShiftContribution
    rcases w.goLive with _ | g
    · rfl
    · simp only []
      split
      · rename_i hcond
        exfalso
        apply hlt
        rw [← hcond.2]
        exact le_max_right _ 1
      · rfl
  · intro sm s hact hpos hsm
    rw [shiftPhase, hact]
    simp only [if_true]
    rw [hsm]
    simp [hpos, min_self]

/-- Witness for C7: go-live on day 20 of the current month (today is day
15), backlog 100 — the schedule is month 1 -> 100; and the shift step at a
concrete Active state with Blocked balance 100. -/
theorem C7_shift_schedule_witness :
    (((⟨0, 20⟩ : Date).ym = todayC7.ym ∧
      dateBefore ⟨0, 20⟩ todayC7 = false ∧ (0 : ℚ) < 100) ∧
     buildShiftMap todayC7 [⟨100, true, some ⟨0, 20⟩⟩] 1 = 100) ∧
    (((⟨0, 100, 0, true⟩ : EngineState).tailwind_active = true ∧
      (0 : ℚ) < (⟨0, 100, 0, true⟩ : EngineState).NANC_b ∧
      (fun m => if m = 1 then (100 : ℚ) else 0) 1 =
        (⟨0, 100, 0, true⟩ : EngineState).NANC_b) ∧
     (shiftPhase (fun m => if m = 1 then (100 : ℚ) else 0) 1
       ⟨0, 100, 0, true⟩).NANC_b = 0) :=
  ⟨⟨⟨rfl, by norm_num [dateBefore, todayC7], by norm_num⟩,
    (C7_shift_schedule.1 todayC7 ⟨0, 20⟩ 100 rfl
      (by norm_num [dateBefore, todayC7]) (by norm_num)).1⟩,
   ⟨⟨rfl, by norm_num, by norm_num⟩,
    (C7_shift_schedule.2.2.2 (fun m => if m = 1 then (100 : ℚ) else 0)
      ⟨0, 100, 0, true⟩ rfl (by norm_num) (by norm_num)).1⟩⟩

/-- Inputs falsifying C8: total backlog 0 but Temporary cohort total 10,
so the clamped Actionable residual loses the (negative) difference. -/
def pC8x : Params :=
  { total_backlog := 0, total_TW_backlog := 10, total_NANC_backlog := 0
    tw_headcount := 0, q2_headcount := 0, utilization := 0
    qtr_demand_total := 0, q2_capacity_to_q2_pct := 0, tw_share_of_demand := 0
    months := 0, tw_shift_map := fun _ => 0, removal_threshold_months := 0
    tw_capacity_reduction_month := 0, model_diff_demand_after_removal := false
    post_removal_qtr_demand_total := none, modify_demand_after_12_months := false
    post_12_qtr_demand_total := none }

/-- Counterexample to C8 as stated: for `pC8x` (total 0, Temporary 10) the
month-0 bucket sum is 10, not the total input backlog 0 — conservation
fails exactly when the Actionable residual is clamped. -/
theorem C8_month0_conservation_cex :
    pC8x.total_backlog = 0 ∧
    ((run_tailwind_model pC8x).get? 0).map
      (fun r => r.TW_Backlog + r.NANC_Backlog + r.AC_Backlog) = some 10 := by
  refine ⟨rfl, ?_⟩
  norm_num [run_tailwind_model, month0Row, initState, pC8x, max_def]

/-- C8 (amended): whenever the Temporary and Blocked cohort totals do not
exceed the total input backlog (the Actionable residual is not clamped),
the month-0 row's three bucket balances sum exactly to the total input
backlog; when the residual is negative the clamped sum is
Temporary + Blocked instead. -/
theorem C8_month0_conservation (p : Params)
    (h : p.total_TW_backlog + p.total_NANC_backlog ≤ p.total_backlog) :
    ((run_tailwind_model p).get? 0).map
      (fun r => r.TW_Backlog + r.NANC_Backlog + r.AC_Backlog) =
      some p.total_backlog := by
  show some ((month0Row p).TW_Backlog + (month0Row p).NANC_Backlog +
    (month0Row p).AC_Backlog) = some p.total_backlog
  have : (month0Row p).AC_Backlog =
      p.total_backlog - p.total_TW_backlog - p.total_NANC_backlog := by
    show max (p.total_backlog - p.total_TW_backlog - p.total_NANC_backlog) 0 = _
    rw [max_eq_left (by linarith)]
  rw [this]
  show some (p.total_TW_backlog + p.total_NANC_backlog +
    (p.total_backlog - p.total_TW_backlog - p.total_NANC_backlog)) = _
  ring_nf

/-- Witness for C8 at `pC1w` (Temporary 0 + Blocked 100 <= total 100). -/
theorem C8_month0_conservation_witness :
    (pC1w.total_TW_backlog + pC1w.total_NANC_backlog ≤ pC1w.total_backlog) ∧
    ((run_tailwind_model pC1w).get? 0).map
      (fun r => r.TW_Backlog + r.NANC_Backlog + r.AC_Backlog) =
      some pC1w.total_backlog :=
  ⟨by norm_num [pC1w], C8_month0_conservation pC1w (by norm_num [pC1w])⟩

/-- C9: in every emitted row (month 0 included), a zero total capacity is
reported with a null coverage value (no division is attempted and no
infinite value appears — the embedding is a total function into `Option`),
and a positive total capacity is reported with coverage equal to the row's
total backlog divided by its total capacity. -/
theorem C9_coverage_null (p : Params) (r : MonthResult)
    (hr : r ∈ run_tailwind_model p) :
    (r.Total_Capacity = 0 → r.Backlog_Months = none) ∧
    (0 < r.Total_Capacity →
      r.Backlog_Months = some (r.Total_Backlog / r.Total_Capacity)) := by
  have hco : r.Backlog_Months =
      (if 0 < r.Total_Capacity
       then some (r.Total_Backlog / r.Total_Capacity) else none) := by
    rcases List.mem_cons.mp hr with h | h
    · subst h
      rfl
    · refine runFrom_all p (foldShiftMap p.tw_shift_map)
        (fun r => r.Backlog_Months =
          (if 0 < r.Total_Capacity
           then some (r.Total_Backlog / r.Total_Capacity) else none))
        (fun _ => True) ?_ p.months 1 (initState p) trivial r h
      intro m s _
      exact ⟨trivial, stepMonth_bm p (foldShiftMap p.tw_shift_map) m s⟩
  constructor
  · intro h0
    rw [hco, h0]
    simp
  · intro hpos
    rw [hco, if_pos hpos]

/-- Witness for C9 at the month-0 row of `pC1w`, whose total capacity is
the positive value 1. -/
theorem C9_coverage_null_witness :
    ((month0Row pC1w) ∈ run_tailwind_model pC1w ∧
     0 < (month0Row pC1w).Total_Capacity) ∧
    (month0Row pC1w).Backlog_Months =
      some ((month0Row pC1w).Total_Backlog / (month0Row pC1w).Total_Capacity) :=
  ⟨⟨List.mem_cons_self _ _,
    by norm_num [month0Row, initState, pC1w, TW_capacity, Q2_capacity_full]⟩,
   (C9_coverage_null pC1w (month0Row pC1w) (List.mem_cons_self _ _)).2
     (by norm_num [month0Row, initState, pC1w, TW_capacity, Q2_capacity_full])⟩

/-- C10: in the month in which the removal fires with
`model_diff_demand_after_removal` enabled, the already-applied incoming
demand is retroactively adjusted before the Temporary-to-Actionable
transfer: the Temporary incoming of that month is subtracted back out
(clamped at 0), the Actionable balance is moved by (post-removal monthly
demand minus the Actionable incoming already applied, clamped at 0), and
only then is the remaining Temporary balance folded into Actionable and
Temporary zeroed in the emitted row. -/
theorem C10_removal_demand_adjust (p : Params) (sm : ℕ → ℚ) (month : ℕ)
    (s : EngineState) (hact : s.tailwind_active = true)
    (hdiff : p.model_diff_demand_after_removal = true)
    (hfire : coverFires
      (preCoverage (monthCfg p month s.tailwind_active)
        (shiftPhase sm month (burnPhase p (monthCfg p month s.tailwind_active) s)))
      p.removal_threshold_months = true) :
    (stepMonth p sm month s).2.TW_Backlog = 0 ∧
    (stepMonth p sm month s).2.Tailwind_Active = false ∧
    (stepMonth p sm month s).2.AC_Backlog =
      max ((shiftPhase sm month
          (burnPhase p (monthCfg p month s.tailwind_active) s)).AC_b +
        ((p.post_removal_qtr_demand_total.getD p.qtr_demand_total) * (1 / 3) -
          (monthCfg p month s.tailwind_active).AC_inc)) 0 +
      max ((shiftPhase sm month
          (burnPhase p (monthCfg p month s.tailwind_active) s)).TW_b -
        (monthCfg p month s.tailwind_active).TW_inc) 0 := by
  have hact2 : (shiftPhase sm month
      (burnPhase p (monthCfg p month s.tailwind_active) s)).tailwind_active = true := by
    rw [shiftPhase_flag, burnPhase_flag]; exact hact
  simp only [stepMonth]
  rw [finishMonth_fire p _ month _ hact2 hfire]
  refine ⟨rfl, rfl, ?_⟩
  show (removalAdjust p _ _).AC_b + (removalAdjust p _ _).TW_b = _
  unfold removalAdjust
  rw [hdiff]
  rfl

/-- Parameters used to witness C10: permanent capacity 1, quarterly demand
300 fully routed to Temporary, post-removal quarterly demand 60, removal
threshold 200, so the transition fires in month 1 with the demand
adjustment enabled. -/
def pC10w : Params :=
  { total_backlog := 100, total_TW_backlog := 0, total_NANC_backlog := 100
    tw_headcount := 0, q2_headcount := 1, utilization := 3 / 520
    qtr_demand_total := 300, q2_capacity_to_q2_pct := 1, tw_share_of_demand := 1
    months := 1, tw_shift_map := fun _ => 0, removal_threshold_months := 200
    tw_capacity_reduction_month := 0, model_diff_demand_after_removal := true
    post_removal_qtr_demand_total := some 60, modify_demand_after_12_months := false
    post_12_qtr_demand_total := none }

/-- Witness for C10: the removal fires at month 1 of `pC10w` and the
emitted row has Temporary 0 and the flag off. -/
theorem C10_removal_demand_adjust_witness :
    ((initState pC10w).tailwind_active = true ∧
     pC10w.model_diff_demand_after_removal = true ∧
     coverFires
       (preCoverage (monthCfg pC10w 1 (initState pC10w).tailwind_active)
         (shiftPhase (fun _ => 0) 1
           (burnPhase pC10w (monthCfg pC10w 1 (initState pC10w).tailwind_active)
             (initState pC10w))))
       pC10w.removal_threshold_months = true) ∧
    ((stepMonth pC10w (fun _ => 0) 1 (initState pC10w)).2.TW_Backlog = 0 ∧
     (stepMonth pC10w (fun _ => 0) 1 (initState pC10w)).2.Tailwind_Active = false) :=
  ⟨⟨rfl, rfl,
    by norm_num [coverFires, preCoverage, shiftPhase, burnPhase, monthCfg, initState,
      pC10w, TW_capacity, Q2_capacity_full, q2CapToAC, q2CapToTW, acBurn, unusedACCap,
      twBurn, min_def, max_def]⟩,
   by
    have hyp := C10_removal_demand_adjust pC10w (fun _ => 0) 1 (initState pC10w) rfl rfl
      (by norm_num [coverFires, preCoverage, shiftPhase, burnPhase, monthCfg, initState,
        pC10w, TW_capacity, Q2_capacity_full, q2CapToAC, q2CapToTW, acBurn, unusedACCap,
        twBurn, min_def, max_def])
    exact ⟨hyp.1, hyp.2.1⟩⟩

end Burndown
